import Mathlib

/-!
Verification of the CanvasCode input/tool core: the pointer session
tracker (src/pointer-session.ts), the input normalizer and router
(src/input-manager.ts), the tool registry and dispatcher
(src/tool-system.ts) and the raster overlay bridge
(src/overlay-canvas.ts), shallowly embedded in Lean.

Observable JS side effects (handler invocations, console reports,
pointer capture requests, project-changed notifications) are modelled as
an explicit trace of `Ev` values.  A tool handler body is abstracted to
its observable outcome (`HResult`): it either returns normally or
throws.  Numeric DOM coordinates and pressures are rationals; the
optional paper.js view transform is an optional function parameter.
-/

namespace CanvasCode

/-- Pointer device kind, mirroring `ev.pointerType` ("mouse" | "pen" | "touch"). -/
inductive PointerType
  | mouse
  | pen
  | touch
deriving DecidableEq

/-- Raw DOM pointer event types the InputManager listens for:
pointerdown / pointermove / pointerup / pointercancel. -/
inductive RawPtrType
  | down
  | move
  | up
  | cancel
deriving DecidableEq

/-- Normalized pointer event types accepted by `ToolSystem.dispatchPointer`:
"pointerdown" | "pointermove" | "pointerup". -/
inductive NormPtrType
  | down
  | move
  | up
deriving DecidableEq

/-- Key event types accepted by `ToolSystem.dispatchKey`: "keydown" | "keyup". -/
inductive KeyKind
  | keydown
  | keyup
deriving DecidableEq

/-- A raw DOM `PointerEvent`, restricted to the fields the InputManager reads.
`pressure` is optional because `makePointerData` guards it with `?? 0`.
The three `target*` flags model what `shouldIgnore` inspects on `ev.target`:
whether the target exists, and whether `target.closest` finds a
draggable ancestor or an ancestor with class "outline-panel". -/
structure RawPointerEvent where
  clientX : ℚ
  clientY : ℚ
  pressure : Option ℚ
  buttons : ℕ
  pointerId : ℕ
  pointerType : PointerType
  tiltX : ℤ
  tiltY : ℤ
  eventType : RawPtrType
  targetPresent : Bool
  targetOnDraggable : Bool
  targetInOutlinePanel : Bool
deriving DecidableEq

/-- `PointerData` from tool-system.ts: the canonical pointer event handed to
tools and to the session manager.  `native` is the raw event passed through. -/
structure PointerData where
  point : ℚ × ℚ
  pressure : ℚ
  buttons : ℕ
  pointerId : ℕ
  pointerType : PointerType
  tiltX : ℤ
  tiltY : ℤ
  native : RawPointerEvent
deriving DecidableEq

/-- Observable outcome of invoking a tool-supplied handler: it either
returns normally or throws an exception. -/
inductive HResult
  | ok
  | threw
deriving DecidableEq

/-- `Tool` from tool-system.ts: a named bag of optional handlers.  `none`
means the handler is absent (optional chaining makes its call a no-op);
`some r` means the handler is present and behaves as `r` when invoked. -/
structure Tool where
  name : String
  onPointerDown : Option HResult
  onPointerMove : Option HResult
  onPointerUp : Option HResult
  onKeyDown : Option HResult
  onKeyUp : Option HResult
  onActivate : Option HResult
  onDeactivate : Option HResult
  onColorChange : Option HResult
deriving DecidableEq

/-- Trace of observable side effects: handler invocations, console
warn/error reports, pointer capture, and project-changed notifications. -/
inductive Ev
  | pointerCaptured (pointerId : ℕ)
  | pointerHandler (toolName : String) (kind : NormPtrType)
  | keyHandler (toolName : String) (kind : KeyKind)
  | activated (toolName : String)
  | deactivated (toolName : String)
  | errorReported (msg : String)
  | projectChanged
deriving DecidableEq

/-! ## Pointer session manager (src/pointer-session.ts)

`sessions: Map<number, PointerData[]>` is modelled as a function from
pointer ids to optional event lists (`undefined` = no session). -/

/-- The `PointerSessionManager` state: its private `sessions` map. -/
structure PointerSessionManager where
  sessions : ℕ → Option (List PointerData)

/-- `Map.set`-style pointwise update of the sessions map. -/
def mapSet (m : ℕ → Option (List PointerData)) (k : ℕ)
    (v : Option (List PointerData)) : ℕ → Option (List PointerData) :=
  fun k' => if k' = k then v else m k'

/-- `start(data)`: begins a session keyed by `data.pointerId`, holding
just the down event (overwrites any existing session for that id). -/
def PointerSessionManager.start (m : PointerSessionManager)
    (data : PointerData) : PointerSessionManager :=
  ⟨mapSet m.sessions data.pointerId (some [data])⟩

/-- `move(data)`: appends to the session for `data.pointerId` if one
exists; a no-op otherwise. -/
def PointerSessionManager.move (m : PointerSessionManager)
    (data : PointerData) : PointerSessionManager :=
  match m.sessions data.pointerId with
  | some arr => ⟨mapSet m.sessions data.pointerId (some (arr ++ [data]))⟩
  | none => m

/-- `end(data)`: if a session exists for the id, appends the terminal
event, deletes the session and returns the full array; otherwise returns
`undefined` and leaves the state untouched.  (`end` is a Lean keyword,
hence the name `endSession`.) -/
def PointerSessionManager.endSession (m : PointerSessionManager)
    (data : PointerData) : Option (List PointerData) × PointerSessionManager :=
  match m.sessions data.pointerId with
  | some arr => (some (arr ++ [data]), ⟨mapSet m.sessions data.pointerId none⟩)
  | none => (none, m)

/-- `get(pointerId)`: read-only view of an in-progress session. -/
def PointerSessionManager.get (m : PointerSessionManager) (pointerId : ℕ) :
    Option (List PointerData) :=
  m.sessions pointerId

/-! ## Tool system (src/tool-system.ts) -/

/-- Association-list model of `Map<string, Tool>` lookup (`Map.get`). -/
def lookupEntry : List (String × Tool) → String → Option Tool
  | [], _ => none
  | (k', v) :: rest, k => if k' = k then some v else lookupEntry rest k

/-- Association-list model of `Map.set`: overwrite in place if the key is
present, append otherwise. -/
def setEntry : List (String × Tool) → String → Tool → List (String × Tool)
  | [], k, v => [(k, v)]
  | (k', v') :: rest, k, v =>
    if k' = k then (k, v) :: rest else (k', v') :: setEntry rest k v

/-- The `ToolSystem` state: its private `tools` registry and the
currently active tool (`null` = Idle). -/
structure ToolSystem where
  tools : List (String × Tool)
  activeTool : Option Tool
deriving DecidableEq

/-- `register(tool)`: validates that the name is a non-empty string and
throws otherwise (the exception propagates to the caller before any
mutation); on success overwrites the registry entry.  The active slot is
never touched. -/
def ToolSystem.register (σ : ToolSystem) (tool : Tool) :
    Except String ToolSystem :=
  if tool.name = "" then
    Except.error "Tool must have a non-empty name property"
  else
    Except.ok ⟨setEntry σ.tools tool.name tool, σ.activeTool⟩

/-- The `try { old.onDeactivate() } catch { console.error(...) }` block of
`activate`, as a trace. -/
def runDeactivate (t : Tool) : List Ev :=
  match t.onDeactivate with
  | none => []
  | some HResult.ok => [Ev.deactivated t.name]
  | some HResult.threw =>
    [Ev.deactivated t.name, Ev.errorReported "Tool onDeactivate error"]

/-- The `try { next.onActivate() } catch { console.error(...) }` block of
`activate`, as a trace. -/
def runActivate (t : Tool) : List Ev :=
  match t.onActivate with
  | none => []
  | some HResult.ok => [Ev.activated t.name]
  | some HResult.threw =>
    [Ev.activated t.name, Ev.errorReported "Tool onActivate error"]

/-- `activate(name)`: unknown name warns and returns with no state
change; otherwise the old tool (if any) is deactivated, the active slot
is set to the new tool, and the new tool is activated, handler errors
being caught and reported. -/
def ToolSystem.activate (σ : ToolSystem) (name : String) :
    ToolSystem × List Ev :=
  match lookupEntry σ.tools name with
  | none =>
    (σ, [Ev.errorReported ("ToolSystem: Cannot activate unknown tool " ++ name)])
  | some next =>
    (⟨σ.tools, some next⟩,
      (match σ.activeTool with
       | some t => runDeactivate t
       | none => []) ++ runActivate next)

/-- `getActiveTool()`. -/
def ToolSystem.getActiveTool (σ : ToolSystem) : Option Tool :=
  σ.activeTool

/-- `getActiveToolName()`: `this.activeTool?.name ?? null`. -/
def ToolSystem.getActiveToolName (σ : ToolSystem) : Option String :=
  σ.activeTool.map Tool.name

/-- The pointer handler selected by `dispatchPointer`'s type switch. -/
def pointerHandlerFor (t : Tool) : NormPtrType → Option HResult
  | NormPtrType.down => t.onPointerDown
  | NormPtrType.move => t.onPointerMove
  | NormPtrType.up => t.onPointerUp

/-- The key handler selected by `dispatchKey`'s type switch. -/
def keyHandlerFor (t : Tool) : KeyKind → Option HResult
  | KeyKind.keydown => t.onKeyDown
  | KeyKind.keyup => t.onKeyUp

/-- `dispatchPointer(type, e)`: no-op when idle; otherwise invokes the
optional handler for `type` on the active tool inside try/catch.  The
`ToolSystem` state is returned unchanged (the method never mutates it);
the trace records the invocation and any caught error. -/
def ToolSystem.dispatchPointer (σ : ToolSystem) (type : NormPtrType) :
    ToolSystem × List Ev :=
  match σ.activeTool with
  | none => (σ, [])
  | some t =>
    match pointerHandlerFor t type with
    | none => (σ, [])
    | some HResult.ok => (σ, [Ev.pointerHandler t.name type])
    | some HResult.threw =>
      (σ, [Ev.pointerHandler t.name type,
           Ev.errorReported ("Tool (" ++ t.name ++ ") pointer handler error")])

/-- `dispatchKey(type, e)`: same shape as `dispatchPointer` for keydown /
keyup handlers. -/
def ToolSystem.dispatchKey (σ : ToolSystem) (type : KeyKind) :
    ToolSystem × List Ev :=
  match σ.activeTool with
  | none => (σ, [])
  | some t =>
    match keyHandlerFor t type with
    | none => (σ, [])
    | some HResult.ok => (σ, [Ev.keyHandler t.name type])
    | some HResult.threw =>
      (σ, [Ev.keyHandler t.name type,
           Ev.errorReported ("Tool (" ++ t.name ++ ") key handler error")])

/-! ## Input manager (src/input-manager.ts)

The canvas bounding rectangle and the optional `window.view` transform
(`viewToProject`) are passed as parameters; the InputManager's two
collaborators (its `PointerSessionManager` and `ToolSystem`) form the
`InputState`. -/

/-- Joint state of the InputManager's session manager and tool system. -/
structure InputState where
  sessions : PointerSessionManager
  toolSys : ToolSystem

/-- `makePointerData(ev)`: canvas-relative view point, mapped through
`view.viewToProject` when a view exists; pressure is `ev.pressure ?? 0`;
the raw event is passed through in `native`. -/
def makePointerData (rect : ℚ × ℚ) (view : Option ((ℚ × ℚ) → ℚ × ℚ))
    (ev : RawPointerEvent) : PointerData :=
  let viewPoint : ℚ × ℚ := (ev.clientX - rect.1, ev.clientY - rect.2)
  let projectPoint : ℚ × ℚ :=
    match view with
    | some viewToProject => viewToProject viewPoint
    | none => viewPoint
  { point := projectPoint
    pressure := ev.pressure.getD 0
    buttons := ev.buttons
    pointerId := ev.pointerId
    pointerType := ev.pointerType
    tiltX := ev.tiltX
    tiltY := ev.tiltY
    native := ev }

/-- `shouldIgnore(ev)`: true when the target exists and lies on a
draggable element or inside the outline panel. -/
def shouldIgnore (ev : RawPointerEvent) : Bool :=
  ev.targetPresent && (ev.targetOnDraggable || ev.targetInOutlinePanel)

/-- The cancel-to-up normalisation applied by `routePointer`:
`ev.type === "pointercancel" ? "pointerup" : ev.type`. -/
def normPtrType : RawPtrType → NormPtrType
  | RawPtrType.down => NormPtrType.down
  | RawPtrType.move => NormPtrType.move
  | RawPtrType.up => NormPtrType.up
  | RawPtrType.cancel => NormPtrType.up

/-- `routePointer(ev)`: filter, capture on pointerdown, normalize,
update the session manager, dispatch to the tool system, and notify
project-changed listeners for down/up only. -/
def routePointer (rect : ℚ × ℚ) (view : Option ((ℚ × ℚ) → ℚ × ℚ))
    (σ : InputState) (ev : RawPointerEvent) : InputState × List Ev :=
  if shouldIgnore ev then (σ, [])
  else
    let captureTr : List Ev :=
      if ev.eventType = RawPtrType.down then [Ev.pointerCaptured ev.pointerId]
      else []
    let data := makePointerData rect view ev
    let type := normPtrType ev.eventType
    let sessions' : PointerSessionManager :=
      match type with
      | NormPtrType.down => σ.sessions.start data
      | NormPtrType.move => σ.sessions.move data
      | NormPtrType.up => (σ.sessions.endSession data).2
    let dispatched := σ.toolSys.dispatchPointer type
    let changeTr : List Ev :=
      if type = NormPtrType.down ∨ type = NormPtrType.up then [Ev.projectChanged]
      else []
    (⟨sessions', dispatched.1⟩, captureTr ++ dispatched.2 ++ changeTr)

/-! ## Overlay canvas (src/overlay-canvas.ts)

The pixel surface (canvas + 2d context) is modelled as an optional pixel
buffer (`none` when not created / destroyed); the Potrace global's
status and behaviour is a parameter, as are the optional
`window.globalColors`. -/

/-- The `OverlayCanvas` state restricted to what `traceToPaper`, `clear`
and `getCanvas` observe: the pixel buffer (when the canvas exists) and
the resolution scale. -/
structure OverlayCanvas where
  canvas : Option (List ℕ)
  scale : ℚ
deriving DecidableEq

/-- `paperToOverlay(point)`: multiply both coordinates by the scale. -/
def OverlayCanvas.paperToOverlay (o : OverlayCanvas) (point : ℚ × ℚ) : ℚ × ℚ :=
  (point.1 * o.scale, point.2 * o.scale)

/-- `getScale()`. -/
def OverlayCanvas.getScale (o : OverlayCanvas) : ℚ :=
  o.scale

/-- `clear()`: `clearRect` zeroes every pixel; a no-op when the canvas or
context is missing. -/
def OverlayCanvas.clear (o : OverlayCanvas) : OverlayCanvas :=
  match o.canvas with
  | some buf => ⟨some (buf.map fun _ => 0), o.scale⟩
  | none => o

/-- Whether the overlay pixel buffer is cleared (all pixels zero);
vacuously true when no canvas exists. -/
def OverlayCanvas.buffCleared (o : OverlayCanvas) : Bool :=
  match o.canvas with
  | some buf => buf.all fun p => p = 0
  | none => true

/-- Status of the `window.potrace` global at the time of the call:
missing / not a function, a call that throws (or rejects), or a call
that resolves to an SVG string. -/
inductive TracerStatus
  | uninitialised
  | willThrow (msg : String)
  | returns (svg : String)
deriving DecidableEq

/-- The paper.js item hierarchy produced by the success path of
`traceToPaper`: the imported SVG, the `1/scale` rescale applied to it,
and the stroke/fill colours applied to its leaf paths. -/
structure ImportedItem where
  svg : String
  scaleApplied : ℚ
  strokeColor : String
  fillColor : String
deriving DecidableEq

/-- `traceToPaper()`: early-returns `null` with a report when the canvas
is missing or Potrace is uninitialised; catches a Potrace exception and
returns `null`; on success imports the SVG, rescales by `1/scale` about
the origin and colours it with the global colours (defaulting to
"#007acc" / "#ff6b6b").  The `finally` block clears the overlay on every
path. -/
def OverlayCanvas.traceToPaper (o : OverlayCanvas) (tracer : TracerStatus)
    (primaryColor secondaryColor : Option String) :
    Option ImportedItem × OverlayCanvas × List Ev :=
  match o.canvas with
  | none => (none, o.clear, [Ev.errorReported "OverlayCanvas: No canvas to trace"])
  | some _ =>
    match tracer with
    | TracerStatus.uninitialised =>
      (none, o.clear, [Ev.errorReported "OverlayCanvas: Potrace is not initialised"])
    | TracerStatus.willThrow _ =>
      (none, o.clear, [Ev.errorReported "OverlayCanvas: Potrace vectorisation failed"])
    | TracerStatus.returns svg =>
      (some { svg := svg
              scaleApplied := 1 / o.getScale
              strokeColor := primaryColor.getD "#007acc"
              fillColor := secondaryColor.getD "#ff6b6b" },
        o.clear, [])

/-! ## Sample inputs for concrete evaluations -/

/-- A concrete raw pointer event with the given type and pointer id. -/
def rawSample (t : RawPtrType) (pid : ℕ) : RawPointerEvent :=
  { clientX := 10
    clientY := 20
    pressure := some (1/2)
    buttons := 1
    pointerId := pid
    pointerType := PointerType.pen
    tiltX := 0
    tiltY := 0
    eventType := t
    targetPresent := true
    targetOnDraggable := false
    targetInOutlinePanel := false }

/-- A concrete canonical pointer event built by the normalizer. -/
def dataSample (t : RawPtrType) (pid : ℕ) : PointerData :=
  makePointerData (0, 0) none (rawSample t pid)

/-- A session manager tracking no sessions. -/
def emptySessions : PointerSessionManager := ⟨fun _ => none⟩

/-- A tool whose present handlers all return normally. -/
def okTool (nm : String) : Tool :=
  { name := nm
    onPointerDown := some HResult.ok
    onPointerMove := some HResult.ok
    onPointerUp := some HResult.ok
    onKeyDown := some HResult.ok
    onKeyUp := some HResult.ok
    onActivate := some HResult.ok
    onDeactivate := some HResult.ok
    onColorChange := none }

/-- A tool whose present handlers all throw. -/
def throwingTool (nm : String) : Tool :=
  { name := nm
    onPointerDown := some HResult.threw
    onPointerMove := some HResult.threw
    onPointerUp := some HResult.threw
    onKeyDown := some HResult.threw
    onKeyUp := some HResult.threw
    onActivate := some HResult.threw
    onDeactivate := some HResult.threw
    onColorChange := none }

/-! ## Session manager lemmas -/

lemma mapSet_self (m : ℕ → Option (List PointerData)) (k : ℕ)
    (v : Option (List PointerData)) : mapSet m k v k = v := by
  simp [mapSet]

lemma foldl_move_sessions (pid : ℕ) :
    ∀ (moves : List PointerData) (σ : PointerSessionManager)
      (arr : List PointerData),
      (∀ e ∈ moves, e.pointerId = pid) → σ.sessions pid = some arr →
      (moves.foldl PointerSessionManager.move σ).sessions pid
        = some (arr ++ moves)
  | [], σ, arr, _, h => by simpa using h
  | e :: rest, σ, arr, hm, h => by
    have he : e.pointerId = pid := hm e (List.mem_cons_self e rest)
    have hmove : (σ.move e).sessions pid = some (arr ++ [e]) := by
      unfold PointerSessionManager.move
      rw [he, h]
      simp [mapSet]
    have ih := foldl_move_sessions pid rest (σ.move e) (arr ++ [e])
      (fun x hx => hm x (List.mem_cons_of_mem e hx)) hmove
    simpa [List.append_assoc] using ih

/-- C2: for a delivered sequence start(e0), move(e1)…move(e_{n-1}),
end(e_n) on one pointer id, `end` returns exactly the ordered sequence
[e0, …, e_n] with the terminal event last, and `get` is absent
afterwards; `end` with no session for the id returns absent and leaves
the tracked state unchanged. -/
theorem pointer_session_lifecycle
    (σ₀ : PointerSessionManager) (e0 : PointerData)
    (moves : List PointerData) (eN : PointerData) (pid : ℕ)
    (σx : PointerSessionManager) (ex : PointerData)
    (h0 : e0.pointerId = pid) (hm : ∀ e ∈ moves, e.pointerId = pid)
    (hN : eN.pointerId = pid)
    (hx : σx.get ex.pointerId = none) :
    ((moves.foldl PointerSessionManager.move (σ₀.start e0)).endSession eN).1
        = some (e0 :: (moves ++ [eN])) ∧
    (((moves.foldl PointerSessionManager.move (σ₀.start e0)).endSession
        eN).2).get pid = none ∧
    σx.endSession ex = (none, σx) := by
  have hstart : (σ₀.start e0).sessions pid = some [e0] := by
    unfold PointerSessionManager.start
    rw [h0]
    simp [mapSet]
  have hfold := foldl_move_sessions pid moves (σ₀.start e0) [e0] hm hstart
  refine ⟨?_, ?_, ?_⟩
  · unfold PointerSessionManager.endSession
    rw [hN, hfold]
    simp
  · unfold PointerSessionManager.endSession
    rw [hN, hfold]
    simp [PointerSessionManager.get, mapSet]
  · unfold PointerSessionManager.endSession
    rw [show σx.sessions ex.pointerId = none from hx]

/-- Concrete run of `pointer_session_lifecycle`: a down, one move and an
up for pointer 7 starting from an empty tracker, plus an end without a
start for pointer 9. -/
theorem pointer_session_lifecycle_witness :
    (([dataSample RawPtrType.move 7].foldl PointerSessionManager.move
        (emptySessions.start (dataSample RawPtrType.down 7))).endSession
        (dataSample RawPtrType.up 7)).1
      = some [dataSample RawPtrType.down 7, dataSample RawPtrType.move 7,
              dataSample RawPtrType.up 7] ∧
    ((([dataSample RawPtrType.move 7].foldl PointerSessionManager.move
        (emptySessions.start (dataSample RawPtrType.down 7))).endSession
        (dataSample RawPtrType.up 7)).2).get 7 = none ∧
    emptySessions.endSession (dataSample RawPtrType.up 9)
      = (none, emptySessions) :=
  pointer_session_lifecycle emptySessions (dataSample RawPtrType.down 7)
    [dataSample RawPtrType.move 7] (dataSample RawPtrType.up 7) 7
    emptySessions (dataSample RawPtrType.up 9)
    (by decide) (by decide) (by decide) rfl

/-! ## Input normalizer: pressure -/

/-- A concrete raw pointer event whose pressure reading is unavailable. -/
def rawNoPressure : RawPointerEvent :=
  { rawSample RawPtrType.down 1 with pressure := none }

/-- C1 counterexample: with the pressure reading unavailable, the
canonical pressure produced by `makePointerData` is 0, not 0.5. -/
theorem pressure_default_counterexample :
    rawNoPressure.pressure = none ∧
    (makePointerData (0, 0) none rawNoPressure).pressure ≠ 1/2 := by
  refine ⟨rfl, ?_⟩
  have h0 : (makePointerData (0, 0) none rawNoPressure).pressure = 0 := rfl
  rw [h0]
  norm_num

/-- C1 (amended): the canonical pressure lies in [0,1] whenever the raw
reading, if present, lies in [0,1]; when the raw reading is unavailable
the canonical pressure is 0 (the code applies `?? 0`). -/
theorem pressure_range_and_default
    (rect : ℚ × ℚ) (view : Option ((ℚ × ℚ) → ℚ × ℚ))
    (ev : RawPointerEvent)
    (h : ∀ p, ev.pressure = some p → 0 ≤ p ∧ p ≤ 1) :
    0 ≤ (makePointerData rect view ev).pressure ∧
    (makePointerData rect view ev).pressure ≤ 1 ∧
    (ev.pressure = none → (makePointerData rect view ev).pressure = 0) := by
  cases hp : ev.pressure with
  | none =>
    refine ⟨?_, ?_, fun _ => ?_⟩ <;> simp [makePointerData, hp]
  | some p =>
    obtain ⟨h1, h2⟩ := h p hp
    refine ⟨?_, ?_, fun hcon => ?_⟩
    · simpa [makePointerData, hp] using h1
    · simpa [makePointerData, hp] using h2
    · exact absurd hcon (by simp)

/-- Concrete run of `pressure_range_and_default` on an event without a
pressure reading. -/
theorem pressure_range_and_default_witness :
    0 ≤ (makePointerData (0, 0) none rawNoPressure).pressure ∧
    (makePointerData (0, 0) none rawNoPressure).pressure ≤ 1 ∧
    (rawNoPressure.pressure = none →
      (makePointerData (0, 0) none rawNoPressure).pressure = 0) :=
  pressure_range_and_default (0, 0) none rawNoPressure
    (fun p hp => by simp [rawNoPressure, rawSample] at hp)

/-! ## Cancel-to-up normalization -/

lemma endSession_snd_congr (m : PointerSessionManager) (d₁ d₂ : PointerData)
    (h : d₁.pointerId = d₂.pointerId) :
    (m.endSession d₁).2 = (m.endSession d₂).2 := by
  unfold PointerSessionManager.endSession
  rw [h]
  cases m.sessions d₂.pointerId <;> rfl

/-- C5: routing a cancel-type pointer event is observably identical to
routing the corresponding up-type event: same resulting session-tracker
and tool-system state and same emitted trace (session closed the same
way, same dispatch kind, no cancel kind downstream). -/
theorem route_cancel_equals_route_up (rect : ℚ × ℚ)
    (view : Option ((ℚ × ℚ) → ℚ × ℚ)) (σ : InputState)
    (ev : RawPointerEvent) :
    routePointer rect view σ { ev with eventType := RawPtrType.cancel }
      = routePointer rect view σ { ev with eventType := RawPtrType.up } := by
  cases ev with
  | mk cx cy pr b pid pt tx ty et tp td tod =>
    have hsnd := endSession_snd_congr σ.sessions
      (makePointerData rect view
        (RawPointerEvent.mk cx cy pr b pid pt tx ty RawPtrType.cancel tp td tod))
      (makePointerData rect view
        (RawPointerEvent.mk cx cy pr b pid pt tx ty RawPtrType.up tp td tod))
      rfl
    simp only [routePointer, shouldIgnore, normPtrType]
    split
    · rfl
    · simp [hsnd]

/-! ## Project-changed notification policy -/

lemma projectChanged_not_mem_dispatchPointer (σ : ToolSystem)
    (k : NormPtrType) : Ev.projectChanged ∉ (σ.dispatchPointer k).2 := by
  unfold ToolSystem.dispatchPointer
  cases σ.activeTool with
  | none => simp
  | some t =>
    cases h : pointerHandlerFor t k with
    | none => simp [h]
    | some r => cases r <;> simp [h]

/-- C8: for a non-ignored pointer event, the project-changed
notification is emitted exactly when the normalized type is down or up
(never for move), and when emitted it is the last event of the trace,
after the tool dispatch. -/
theorem project_changed_only_down_up (rect : ℚ × ℚ)
    (view : Option ((ℚ × ℚ) → ℚ × ℚ)) (σ : InputState)
    (ev : RawPointerEvent) (hig : shouldIgnore ev = false) :
    (Ev.projectChanged ∈ (routePointer rect view σ ev).2 ↔
      (normPtrType ev.eventType = NormPtrType.down ∨
        normPtrType ev.eventType = NormPtrType.up)) ∧
    ((normPtrType ev.eventType = NormPtrType.down ∨
        normPtrType ev.eventType = NormPtrType.up) →
      (routePointer rect view σ ev).2.getLast? = some Ev.projectChanged) := by
  have hdisp := projectChanged_not_mem_dispatchPointer σ.toolSys
    (normPtrType ev.eventType)
  unfold routePointer
  rw [if_neg (by simp [hig])]
  cases hev : ev.eventType with
  | down =>
    rw [hev] at hdisp
    simp only [normPtrType] at hdisp
    simp [hev, normPtrType]
    rw [show Ev.pointerCaptured ev.pointerId ::
          ((σ.toolSys.dispatchPointer NormPtrType.down).2 ++ [Ev.projectChanged])
        = (Ev.pointerCaptured ev.pointerId ::
            (σ.toolSys.dispatchPointer NormPtrType.down).2)
          ++ [Ev.projectChanged] from rfl]
    exact List.getLast?_concat _
  | move =>
    rw [hev] at hdisp
    simp only [normPtrType] at hdisp
    simp [hev, normPtrType, hdisp]
  | up =>
    rw [hev] at hdisp
    simp [hev, normPtrType]
  | cancel =>
    rw [hev] at hdisp
    simp [hev, normPtrType]

/-- Concrete run of `project_changed_only_down_up` on an up event over
an empty input state. -/
theorem project_changed_only_down_up_witness :
    (Ev.projectChanged ∈
        (routePointer (0, 0) none ⟨emptySessions, ⟨[], none⟩⟩
          (rawSample RawPtrType.up 3)).2 ↔
      (normPtrType (rawSample RawPtrType.up 3).eventType = NormPtrType.down ∨
        normPtrType (rawSample RawPtrType.up 3).eventType = NormPtrType.up)) ∧
    ((normPtrType (rawSample RawPtrType.up 3).eventType = NormPtrType.down ∨
        normPtrType (rawSample RawPtrType.up 3).eventType = NormPtrType.up) →
      (routePointer (0, 0) none ⟨emptySessions, ⟨[], none⟩⟩
          (rawSample RawPtrType.up 3)).2.getLast? = some Ev.projectChanged) :=
  project_changed_only_down_up (0, 0) none ⟨emptySessions, ⟨[], none⟩⟩
    (rawSample RawPtrType.up 3) (by decide)

/-! ## Tool system: activation state machine -/

/-- Whether a trace event is a lifecycle-hook invocation
(activation or deactivation). -/
def isLifecycleEv : Ev → Bool
  | Ev.activated _ => true
  | Ev.deactivated _ => true
  | _ => false

/-- C7: `activate` on an unknown name reports an error, changes no state
(so `getActiveToolName` is unchanged) and invokes no activation or
deactivation handler. -/
theorem activate_unknown_name (σ : ToolSystem) (name : String)
    (h : lookupEntry σ.tools name = none) :
    σ.activate name
      = (σ, [Ev.errorReported
          ("ToolSystem: Cannot activate unknown tool " ++ name)]) ∧
    (σ.activate name).1.getActiveToolName = σ.getActiveToolName ∧
    ∀ e ∈ (σ.activate name).2, ∀ nm,
      e ≠ Ev.activated nm ∧ e ≠ Ev.deactivated nm := by
  have h1 : σ.activate name
      = (σ, [Ev.errorReported
          ("ToolSystem: Cannot activate unknown tool " ++ name)]) := by
    unfold ToolSystem.activate
    rw [h]
  refine ⟨h1, by rw [h1], ?_⟩
  rw [h1]
  intro e he nm
  simp only [List.mem_singleton] at he
  subst he
  exact ⟨by simp, by simp⟩

/-- Concrete run of `activate_unknown_name`: activating a name absent
from a one-tool registry. -/
theorem activate_unknown_name_witness :
    (ToolSystem.activate ⟨[("pen", okTool "pen")], some (okTool "pen")⟩
        "missing")
      = (⟨[("pen", okTool "pen")], some (okTool "pen")⟩,
         [Ev.errorReported
           ("ToolSystem: Cannot activate unknown tool " ++ "missing")]) ∧
    (ToolSystem.activate ⟨[("pen", okTool "pen")], some (okTool "pen")⟩
        "missing").1.getActiveToolName
      = ToolSystem.getActiveToolName
          ⟨[("pen", okTool "pen")], some (okTool "pen")⟩ :=
  ⟨(activate_unknown_name ⟨[("pen", okTool "pen")], some (okTool "pen")⟩
      "missing" (by decide)).1,
   (activate_unknown_name ⟨[("pen", okTool "pen")], some (okTool "pen")⟩
      "missing" (by decide)).2.1⟩

/-- C3: `activate` on a registered name invokes the outgoing tool's
deactivation handler and then the incoming tool's activation handler,
each exactly once (the lifecycle events of the trace are exactly
deactivate-old followed by activate-new), and afterwards
`getActiveToolName` returns the requested name.  This covers
re-registration under the active tool's name: the active slot still
holds the old instance, so its deactivation fires before the new
instance's activation. -/
theorem activate_lifecycle_order (σ : ToolSystem) (name : String)
    (next old : Tool) (d a : HResult)
    (hl : lookupEntry σ.tools name = some next)
    (hact : σ.activeTool = some old)
    (hd : old.onDeactivate = some d)
    (ha : next.onActivate = some a) :
    (σ.activate name).2.filter isLifecycleEv
      = [Ev.deactivated old.name, Ev.activated next.name] ∧
    (σ.activate name).1.getActiveToolName = some next.name := by
  unfold ToolSystem.activate
  rw [hl, hact]
  cases d <;> cases a <;>
    simp [runDeactivate, runActivate, hd, ha, isLifecycleEv,
      ToolSystem.getActiveToolName]

/-- Concrete run of `activate_lifecycle_order`: the scenario where a new
instance has been re-registered under the active tool's name and
`activate` is called with that same name; deactivation (of the old
instance) and activation (of the new one) fire once each, in order. -/
theorem activate_lifecycle_order_witness :
    (ToolSystem.activate
        ⟨[("brush", throwingTool "brush")], some (okTool "brush")⟩
        "brush").2.filter isLifecycleEv
      = [Ev.deactivated "brush", Ev.activated "brush"] ∧
    (ToolSystem.activate
        ⟨[("brush", throwingTool "brush")], some (okTool "brush")⟩
        "brush").1.getActiveToolName = some "brush" :=
  activate_lifecycle_order
    ⟨[("brush", throwingTool "brush")], some (okTool "brush")⟩
    "brush" (throwingTool "brush") (okTool "brush") HResult.ok HResult.threw
    (by decide) rfl rfl rfl

/-- C10: once the name is found in the registry, the slot transition
always completes: the active slot holds the new tool afterwards, whatever
the deactivation and activation handlers do (including throwing). -/
theorem activate_always_transitions (σ : ToolSystem) (name : String)
    (next : Tool) (hl : lookupEntry σ.tools name = some next) :
    (σ.activate name).1.activeTool = some next ∧
    (σ.activate name).1.getActiveTool = some next ∧
    (σ.activate name).1.getActiveToolName = some next.name := by
  unfold ToolSystem.activate
  rw [hl]
  simp [ToolSystem.getActiveTool, ToolSystem.getActiveToolName]

/-- Concrete run of `activate_always_transitions`: both the outgoing
tool's deactivation handler and the incoming tool's activation handler
throw, yet the slot ends on the new tool. -/
theorem activate_always_transitions_witness :
    (ToolSystem.activate
        ⟨[("bad", throwingTool "bad")], some (throwingTool "old")⟩
        "bad").1.activeTool = some (throwingTool "bad") ∧
    (ToolSystem.activate
        ⟨[("bad", throwingTool "bad")], some (throwingTool "old")⟩
        "bad").1.getActiveTool = some (throwingTool "bad") ∧
    (ToolSystem.activate
        ⟨[("bad", throwingTool "bad")], some (throwingTool "old")⟩
        "bad").1.getActiveToolName = some (throwingTool "bad").name :=
  activate_always_transitions
    ⟨[("bad", throwingTool "bad")], some (throwingTool "old")⟩
    "bad" (throwingTool "bad") (by decide)

/-- C4: a throwing pointer handler is caught and reported (the dispatch
returns normally with the error in the trace), the same tool remains
active, a subsequent dispatch still reaches its handler, and when no
tool is active both dispatch operations are no-ops. -/
theorem dispatch_isolates_handler_errors (σ σi : ToolSystem) (t : Tool)
    (k k2 : NormPtrType) (kk kk2 : KeyKind) (r : HResult)
    (hact : σ.activeTool = some t)
    (hthrew : pointerHandlerFor t k = some HResult.threw)
    (h2 : pointerHandlerFor t k2 = some r)
    (hkthrew : keyHandlerFor t kk2 = some HResult.threw)
    (hidle : σi.activeTool = none) :
    σ.dispatchPointer k
      = (σ, [Ev.pointerHandler t.name k,
             Ev.errorReported ("Tool (" ++ t.name ++ ") pointer handler error")]) ∧
    σ.dispatchKey kk2
      = (σ, [Ev.keyHandler t.name kk2,
             Ev.errorReported ("Tool (" ++ t.name ++ ") key handler error")]) ∧
    ((σ.dispatchPointer k).1).activeTool = some t ∧
    Ev.pointerHandler t.name k2 ∈ ((σ.dispatchPointer k).1.dispatchPointer k2).2 ∧
    σi.dispatchPointer k = (σi, []) ∧
    σi.dispatchKey kk = (σi, []) := by
  have h1 : σ.dispatchPointer k
      = (σ, [Ev.pointerHandler t.name k,
             Ev.errorReported ("Tool (" ++ t.name ++ ") pointer handler error")]) := by
    simp [ToolSystem.dispatchPointer, hact, hthrew]
  refine ⟨h1, ?_, by rw [h1]; exact hact, ?_, ?_, ?_⟩
  · simp [ToolSystem.dispatchKey, hact, hkthrew]
  · rw [h1]
    cases r <;> simp [ToolSystem.dispatchPointer, hact, h2]
  · simp [ToolSystem.dispatchPointer, hidle]
  · simp [ToolSystem.dispatchKey, hidle]

/-- Concrete run of `dispatch_isolates_handler_errors`: a tool whose
handlers all throw receives a pointerdown and then a pointermove; an
idle system ignores both dispatch operations. -/
theorem dispatch_isolates_handler_errors_witness :
    ToolSystem.dispatchPointer ⟨[], some (throwingTool "t")⟩ NormPtrType.down
      = (⟨[], some (throwingTool "t")⟩,
         [Ev.pointerHandler (throwingTool "t").name NormPtrType.down,
          Ev.errorReported
            ("Tool (" ++ (throwingTool "t").name ++ ") pointer handler error")]) ∧
    ToolSystem.dispatchKey ⟨[], some (throwingTool "t")⟩ KeyKind.keyup
      = (⟨[], some (throwingTool "t")⟩,
         [Ev.keyHandler (throwingTool "t").name KeyKind.keyup,
          Ev.errorReported
            ("Tool (" ++ (throwingTool "t").name ++ ") key handler error")]) ∧
    ((ToolSystem.dispatchPointer ⟨[], some (throwingTool "t")⟩
        NormPtrType.down).1).activeTool = some (throwingTool "t") ∧
    Ev.pointerHandler (throwingTool "t").name NormPtrType.move ∈
      ((ToolSystem.dispatchPointer ⟨[], some (throwingTool "t")⟩
          NormPtrType.down).1.dispatchPointer NormPtrType.move).2 ∧
    ToolSystem.dispatchPointer ⟨[], none⟩ NormPtrType.down = (⟨[], none⟩, []) ∧
    ToolSystem.dispatchKey ⟨[], none⟩ KeyKind.keydown = (⟨[], none⟩, []) :=
  dispatch_isolates_handler_errors ⟨[], some (throwingTool "t")⟩ ⟨[], none⟩
    (throwingTool "t") NormPtrType.down NormPtrType.move KeyKind.keydown
    KeyKind.keyup HResult.threw rfl rfl rfl rfl rfl

/-- C9: `register` rejects an empty name with a validation error and no
state change; with a valid name it overwrites the registry entry and
leaves the active slot untouched (even when the overwritten name is the
active tool's), so dispatch still reaches the old active instance. -/
theorem register_validates_and_preserves_slot (σ : ToolSystem)
    (tb tg : Tool) (k : NormPtrType)
    (hb : tb.name = "") (hg : tg.name ≠ "") :
    σ.register tb = Except.error "Tool must have a non-empty name property" ∧
    σ.register tg = Except.ok ⟨setEntry σ.tools tg.name tg, σ.activeTool⟩ ∧
    (ToolSystem.dispatchPointer ⟨setEntry σ.tools tg.name tg, σ.activeTool⟩ k).2
      = (σ.dispatchPointer k).2 ∧
    (ToolSystem.dispatchPointer ⟨setEntry σ.tools tg.name tg, σ.activeTool⟩ k).1
      = ⟨setEntry σ.tools tg.name tg, σ.activeTool⟩ ∧
    ToolSystem.getActiveToolName ⟨setEntry σ.tools tg.name tg, σ.activeTool⟩
      = σ.getActiveToolName := by
  refine ⟨?_, ?_, ?_, ?_, ?_⟩
  · simp [ToolSystem.register, hb]
  · simp [ToolSystem.register, hg]
  · unfold ToolSystem.dispatchPointer
    cases σ.activeTool with
    | none => rfl
    | some t =>
      cases h : pointerHandlerFor t k with
      | none => simp [h]
      | some r => cases r <;> simp [h]
  · unfold ToolSystem.dispatchPointer
    cases σ.activeTool with
    | none => rfl
    | some t =>
      cases h : pointerHandlerFor t k with
      | none => simp [h]
      | some r => cases r <;> simp [h]
  · rfl

/-- Concrete run of `register_validates_and_preserves_slot`: rejecting a
nameless tool, and overwriting the entry of the currently active tool
while dispatch keeps reaching the old instance's handlers. -/
theorem register_validates_and_preserves_slot_witness :
    ToolSystem.register ⟨[("brush", okTool "brush")], some (okTool "brush")⟩
        (okTool "")
      = Except.error "Tool must have a non-empty name property" ∧
    ToolSystem.register ⟨[("brush", okTool "brush")], some (okTool "brush")⟩
        (throwingTool "brush")
      = Except.ok ⟨setEntry [("brush", okTool "brush")]
            (throwingTool "brush").name (throwingTool "brush"),
          some (okTool "brush")⟩ ∧
    (ToolSystem.dispatchPointer ⟨setEntry [("brush", okTool "brush")]
          (throwingTool "brush").name (throwingTool "brush"),
        some (okTool "brush")⟩ NormPtrType.down).2
      = (ToolSystem.dispatchPointer
          ⟨[("brush", okTool "brush")], some (okTool "brush")⟩
          NormPtrType.down).2 ∧
    (ToolSystem.dispatchPointer ⟨setEntry [("brush", okTool "brush")]
          (throwingTool "brush").name (throwingTool "brush"),
        some (okTool "brush")⟩ NormPtrType.down).1
      = ⟨setEntry [("brush", okTool "brush")]
          (throwingTool "brush").name (throwingTool "brush"),
        some (okTool "brush")⟩ ∧
    ToolSystem.getActiveToolName ⟨setEntry [("brush", okTool "brush")]
          (throwingTool "brush").name (throwingTool "brush"),
        some (okTool "brush")⟩
      = ToolSystem.getActiveToolName
          ⟨[("brush", okTool "brush")], some (okTool "brush")⟩ :=
  register_validates_and_preserves_slot
    ⟨[("brush", okTool "brush")], some (okTool "brush")⟩
    (okTool "") (throwingTool "brush") NormPtrType.down rfl (by decide)

/-! ## Overlay bridge: traceToPaper -/

lemma buffCleared_clear (o : OverlayCanvas) : (o.clear).buffCleared = true := by
  cases hc : o.canvas with
  | none => simp [OverlayCanvas.clear, OverlayCanvas.buffCleared, hc]
  | some buf =>
    simp [OverlayCanvas.clear, OverlayCanvas.buffCleared, hc, List.all_eq_true]

/-- C6: `traceToPaper` always leaves the overlay pixel buffer cleared
(whatever the tracer does and whether the canvas exists), and on any
failure — missing canvas, uninitialised tracer, tracer exception — it
reports the failure and returns absent. -/
theorem trace_to_paper_clears_overlay (o : OverlayCanvas)
    (tracer : TracerStatus) (pc sc : Option String) :
    ((o.traceToPaper tracer pc sc).2.1).buffCleared = true ∧
    ((o.canvas = none ∨ tracer = TracerStatus.uninitialised ∨
        (∃ m, tracer = TracerStatus.willThrow m)) →
      (o.traceToPaper tracer pc sc).1 = none ∧
      (o.traceToPaper tracer pc sc).2.2 ≠ []) := by
  constructor
  · cases hc : o.canvas with
    | none => simp [OverlayCanvas.traceToPaper, hc, buffCleared_clear]
    | some buf =>
      cases tracer <;> simp [OverlayCanvas.traceToPaper, hc, buffCleared_clear]
  · intro hfail
    cases hc : o.canvas with
    | none => simp [OverlayCanvas.traceToPaper, hc]
    | some buf =>
      rcases hfail with h | h | ⟨m, h⟩
      · rw [hc] at h
        cases h
      · subst h
        simp [OverlayCanvas.traceToPaper, hc]
      · subst h
        simp [OverlayCanvas.traceToPaper, hc]

/-- Concrete run of `trace_to_paper_clears_overlay`: a quarter-scale
overlay holding a non-zero pixel, traced while Potrace is not
initialised. -/
theorem trace_to_paper_clears_overlay_witness :
    ((OverlayCanvas.traceToPaper ⟨some [3, 0], 1/4⟩
        TracerStatus.uninitialised none none).2.1).buffCleared = true ∧
    (OverlayCanvas.traceToPaper ⟨some [3, 0], 1/4⟩
        TracerStatus.uninitialised none none).1 = none ∧
    (OverlayCanvas.traceToPaper ⟨some [3, 0], 1/4⟩
        TracerStatus.uninitialised none none).2.2 ≠ [] :=
  ⟨(trace_to_paper_clears_overlay ⟨some [3, 0], 1/4⟩
      TracerStatus.uninitialised none none).1,
   ((trace_to_paper_clears_overlay ⟨some [3, 0], 1/4⟩
      TracerStatus.uninitialised none none).2 (Or.inr (Or.inl rfl))).1,
   ((trace_to_paper_clears_overlay ⟨some [3, 0], 1/4⟩
      TracerStatus.uninitialised none none).2 (Or.inr (Or.inl rfl))).2⟩

end CanvasCode
